import Mathlib

/-!
Shallow embedding of `core/contracts/helper.go` (package `contracts`):
the storage-slot resolver (`ComputeMappingHash`, `WalletStatus`) and the
transaction-admission evaluator (`IsTransactionAllowed`), together with the
system-wallet registry. Bytes are `Nat`s below 256, byte strings are
`List Nat`, 20-byte addresses are `Fin (2 ^ 160)`, and Go's `*big.Int`
status values are `Nat` (they are always non-negative reads of a 32-byte
storage word). A Go nil pointer is `Option.none`; a Go panic (nil-pointer
dereference) is modelled by the whole computation returning `none`.
-/

/-! ### Bytes and fixed-width big-endian encoding -/

/-- A 20-byte Ethereum account address (`common.Address`), as its value. -/
abbrev Address : Type := Fin (2 ^ 160)

/-- Big-endian value of a byte string (`common.Hash.Big` / `big.Int.SetBytes`). -/
def natOfBE (bs : List Nat) : Nat := bs.foldl (fun acc b => acc * 256 + b) 0

/-- Minimal big-endian bytes of `n`, empty for `0` (`big.Int.Bytes`).
The first argument is structural fuel; `n + 1` steps always suffice. -/
def minBytesAux : Nat → Nat → List Nat
  | 0, _ => []
  | fuel + 1, n => if n = 0 then [] else minBytesAux fuel (n / 256) ++ [n % 256]

/-- Minimal big-endian bytes of `n` (`big.Int.Bytes`): empty for zero, no
leading zero byte otherwise. -/
def minBytes (n : Nat) : List Nat := minBytesAux (n + 1) n

/-- Fixed-width big-endian bytes of `n` (width first). -/
def natToBE : Nat → Nat → List Nat
  | 0, _ => []
  | w + 1, n => natToBE w (n / 256) ++ [n % 256]

/-- The 20 bytes of an address (`common.Address.Bytes`). -/
def addrBytes (a : Address) : List Nat := natToBE 20 a.val

/-- Left-pad a byte string with zero bytes to length 32 (`common.LeftPadBytes`
to 32, as the spec's `LeftPad32`). -/
def leftPad32 (bs : List Nat) : List Nat :=
  List.replicate (32 - bs.length) 0 ++ bs

/-- `common.BytesToHash` / `Hash.SetBytes`: keep the last 32 bytes when the
input is longer, otherwise left-pad with zeros to 32 bytes. -/
def bytesToHashBytes (bs : List Nat) : List Nat :=
  if bs.length ≤ 32 then List.replicate (32 - bs.length) 0 ++ bs
  else bs.drop (bs.length - 32)

/-! ### Keccak-256 (`crypto.Keccak256Hash`), executable

Lanes are 64-bit words stored as `Nat`s below `2 ^ 64`; the sponge state is a
flat list of 25 lanes, lane `(x, y)` at index `x + 5 * y`. -/

/-- 64-bit left rotation. -/
def rotl64 (x n : Nat) : Nat :=
  ((x <<< (n % 64)) ||| (x >>> (64 - n % 64))) % (2 ^ 64)

/-- 64-bit bitwise complement. -/
def not64 (x : Nat) : Nat := x ^^^ (2 ^ 64 - 1)

/-- Lane read with zero default. -/
def lane (s : List Nat) (i : Nat) : Nat := s.getD i 0

/-- Keccak-f round constants, three per group. -/
def keccakRC : List Nat :=
  [[0x0000000000000001, 0x0000000000008082, 0x800000000000808a],
   [0x8000000080008000, 0x000000000000808b, 0x0000000080000001],
   [0x8000000080008081, 0x8000000000008009, 0x000000000000008a],
   [0x0000000000000088, 0x0000000080008009, 0x000000008000000a],
   [0x000000008000808b, 0x800000000000008b, 0x8000000000008089],
   [0x8000000000008003, 0x8000000000008002, 0x8000000000000080],
   [0x000000000000800a, 0x800000008000000a, 0x8000000080008081],
   [0x8000000000008080, 0x0000000080000001, 0x8000000080008008]].flatten

/-- Rho rotation offsets, row by row; lane `(x, y)` sits at flat index
`x + 5 * y`. -/
def rotOff : List Nat :=
  [[0, 1, 62, 28, 27],
   [36, 44, 6, 55, 20],
   [3, 10, 43, 25, 39],
   [41, 45, 15, 21, 8],
   [18, 2, 61, 56, 14]].flatten

/-- Theta step. -/
def theta (s : List Nat) : List Nat :=
  let c := (List.range 5).map (fun x =>
    lane s x ^^^ lane s (x + 5) ^^^ lane s (x + 10) ^^^
      lane s (x + 15) ^^^ lane s (x + 20))
  let d := (List.range 5).map (fun x =>
    lane c ((x + 4) % 5) ^^^ rotl64 (lane c ((x + 1) % 5)) 1)
  (List.range 25).map (fun i => lane s i ^^^ lane d (i % 5))

/-- Rho and pi steps: destination `(X, Y)` takes the rotated lane at
`(X + 3Y mod 5, X)`. -/
def rhoPi (s : List Nat) : List Nat :=
  (List.range 25).map (fun j =>
    let x := (j % 5 + 3 * (j / 5)) % 5
    let y := j % 5
    rotl64 (lane s (x + 5 * y)) (lane rotOff (x + 5 * y)))

/-- Chi step. -/
def chi (s : List Nat) : List Nat :=
  (List.range 25).map (fun j =>
    let x := j % 5
    let y := j / 5
    lane s j ^^^ (not64 (lane s ((x + 1) % 5 + 5 * y)) &&&
      lane s ((x + 2) % 5 + 5 * y)))

/-- Iota step. -/
def iotaStep (rc : Nat) (s : List Nat) : List Nat :=
  (List.range 25).map (fun j => if j = 0 then lane s 0 ^^^ rc else lane s j)

/-- One Keccak-f[1600] permutation: 24 rounds. -/
def keccakF (s : List Nat) : List Nat :=
  keccakRC.foldl (fun st rc => iotaStep rc (chi (rhoPi (theta st)))) s

/-- Little-endian 64-bit lane from up to 8 bytes. -/
def bytesToLaneLE (bs : List Nat) : Nat :=
  bs.foldr (fun b acc => acc * 256 + b) 0

/-- Little-endian 8 bytes of a 64-bit lane. -/
def laneToBytesLE (v : Nat) : List Nat :=
  (List.range 8).map (fun i => v / 256 ^ i % 256)

/-- Multi-rate padding with the original-Keccak domain byte `0x01`
(not the NIST SHA-3 `0x06`), rate 136 bytes. -/
def keccakPad (msg : List Nat) : List Nat :=
  let padLen := 136 - msg.length % 136
  msg ++ (if padLen = 1 then [0x81]
          else 0x01 :: (List.replicate (padLen - 2) 0 ++ [0x80]))

/-- Split into 136-byte blocks (fuel-structural; `bs.length` steps suffice). -/
def splitBlocksAux : Nat → List Nat → List (List Nat)
  | 0, _ => []
  | fuel + 1, bs =>
    if bs.length = 0 then []
    else bs.take 136 :: splitBlocksAux fuel (bs.drop 136)

/-- Split a padded message into its 136-byte rate blocks. -/
def splitBlocks (bs : List Nat) : List (List Nat) :=
  splitBlocksAux bs.length bs

/-- XOR one 136-byte block into the first 17 lanes and permute. -/
def absorbBlock (s : List Nat) (block : List Nat) : List Nat :=
  keccakF ((List.range 25).map (fun i =>
    lane s i ^^^ (if i < 17 then bytesToLaneLE ((block.drop (8 * i)).take 8)
                  else 0)))

/-- Keccak-256 of a byte string, as its 32 output bytes. -/
def keccak256Bytes (msg : List Nat) : List Nat :=
  let s := (splitBlocks (keccakPad msg)).foldl absorbBlock (List.replicate 25 0)
  ((List.range 4).map (fun i => laneToBytesLE (lane s i))).flatten

set_option maxRecDepth 100000 in
/-- Keccak-256 of the empty string is the well-known
`c5d246...85a470` (the empty-code hash of Ethereum accounts). -/
theorem keccak256_empty :
    keccak256Bytes [] =
      [0xc5, 0xd2, 0x46, 0x01, 0x86, 0xf7, 0x23, 0x3c,
       0x92, 0x7e, 0x7d, 0xb2, 0xdc, 0xc7, 0x03, 0xc0,
       0xe5, 0x00, 0xb6, 0x53, 0xca, 0x82, 0x27, 0x3b,
       0x7b, 0xfa, 0xd8, 0x04, 0x5d, 0x85, 0xa4, 0x70] := by decide

set_option maxRecDepth 100000 in
/-- Keccak-256 of the ASCII string abc. -/
theorem keccak256_abc :
    keccak256Bytes [0x61, 0x62, 0x63] =
      [0x4e, 0x03, 0x65, 0x7a, 0xea, 0x45, 0xa9, 0x4f,
       0xc7, 0xd4, 0x7b, 0xa8, 0x26, 0xc8, 0xd6, 0x67,
       0xc0, 0xd1, 0xe6, 0xe3, 0x3a, 0x64, 0xa0, 0x36,
       0xec, 0x44, 0xf5, 0x8f, 0xa1, 0x2d, 0x6c, 0x45] := by decide

/-! ### System wallet registry (`helper.go` lines 16–35) -/

/-- Modelled from the spec: the concrete hex constant `OwnerContractAddrHex`
lives in a repository source file that is not under `src/`; the spec fixes
only that the owner contract address is one of the five distinct System
Addresses, so a placeholder value stands in for it. -/
def OwnerContractAddr : Address := ⟨0x01, by decide⟩

/-- Modelled from the spec: placeholder for `WacContractAddrHex`, the
access-control (WAC) contract address, one of the five System Addresses. -/
def WacContractAddr : Address := ⟨0x02, by decide⟩

/-- Modelled from the spec: placeholder for `SidraTokenAddrHex`, the token
contract address, one of the five System Addresses. -/
def SidraTokenAddr : Address := ⟨0x03, by decide⟩

/-- Modelled from the spec: placeholder for `MainFaucetAddrHex`, the main
faucet address, one of the five System Addresses. -/
def MainFaucetAddr : Address := ⟨0x04, by decide⟩

/-- Modelled from the spec: placeholder for `WaqfAddrHex`, the waqf contract
address, one of the five System Addresses. -/
def WaqfAddr : Address := ⟨0x05, by decide⟩

/-- The `SystemWallets` map of `helper.go`: membership of the five system
wallet addresses (a missing key reads as `false` in a Go map). -/
def SystemWallets (a : Address) : Bool :=
  a == OwnerContractAddr || a == WacContractAddr || a == SidraTokenAddr ||
    a == MainFaucetAddr || a == WaqfAddr

/-! ### Storage slot resolver (`helper.go` lines 39–68) -/

/-- `ComputeMappingHash(addr *common.Address, slot *big.Int)`: left-pad the
slot bytes and the address bytes to 32-byte hashes, concatenate key bytes
then slot bytes, and Keccak-256 the 64 bytes. The Go function dereferences
`addr` unconditionally; callers that may pass nil handle that at the call
site below. -/
def ComputeMappingHash (addr : Address) (slot : Nat) : List Nat :=
  let p := bytesToHashBytes (minBytes slot)
  let hK := bytesToHashBytes (addrBytes addr)
  keccak256Bytes (hK ++ p)

/-- Modelled from the spec: the external State Reader (`state.StateDB`, a
collaborator whose code is not under `src/`) maps a contract address and a
32-byte storage slot to the raw 32-byte value stored there — zero if never
written — read here as its unsigned-integer value; the spec gives it no
write capability. -/
def StateDB : Type := Address → List Nat → Nat

/-- `IsSystemAddr(addr *common.Address)`: nil is not a system address;
otherwise look the address up in `SystemWallets`. -/
def IsSystemAddr (addr : Option Address) : Bool :=
  match addr with
  | none => false
  | some a => SystemWallets a

/-- `WalletStatus(addr *common.Address, statedb *state.StateDB)`: a system
address is reported as `1` without touching storage; otherwise read the WAC
contract's mapping at `ComputeMappingHash(addr, 3)`. A nil `addr` reaches
`ComputeMappingHash`, which dereferences it: that panic is the `none`
result. -/
def WalletStatus (addr : Option Address) (statedb : StateDB) : Option Nat :=
  if IsSystemAddr addr then some 1
  else
    match addr with
    | none => none
    | some a => some (statedb WacContractAddr (ComputeMappingHash a 3))

/-! ### Status predicates (`helper.go` lines 77–96) -/

/-- `isWhiteList(value *big.Int)`: nil is not whitelisted; otherwise the
value equals 1. -/
def isWhiteList (value : Option Nat) : Bool :=
  match value with
  | none => false
  | some v => v == 1

/-- `isBlackList(value *big.Int)`: nil counts as blacklisted; otherwise the
value equals 0 (the unlisted default). -/
def isBlackList (value : Option Nat) : Bool :=
  match value with
  | none => true
  | some v => v == 0

/-- `isGreyList(value *big.Int)`: nil is not greylisted; otherwise the value
equals 2. -/
def isGreyList (value : Option Nat) : Bool :=
  match value with
  | none => false
  | some v => v == 2

/-! ### Access decision evaluator (`helper.go` lines 98–131) -/

/-- A transaction as the evaluator sees it: `tx.To()` is nil for
contract-creation transactions. -/
structure Transaction where
  toAddr : Option Address

/-- `IsTransactionAllowed(tx, addr, statedb)`. The sender status and the
receiver status are both computed before any branching, so a nil receiver
(or nil sender) panics inside `WalletStatus` — propagated here as `none`.
Each returned pair is the Go `(bool, error)` with the error's message. -/
def IsTransactionAllowed (tx : Transaction) (addr : Option Address)
    (statedb : StateDB) : Option (Bool × Option String) :=
  if IsSystemAddr addr then some (true, none)
  else
    match WalletStatus addr statedb with
    | none => none
    | some senderStatus =>
      match WalletStatus tx.toAddr statedb with
      | none => none
      | some receiverStatus =>
        if isWhiteList (some senderStatus) && isWhiteList (some receiverStatus) then
          some (true, none)
        else if isGreyList (some senderStatus) && IsSystemAddr tx.toAddr then
          some (true, none)
        else if isBlackList (some senderStatus) then
          some (false, some "transaction is not allowed because sender is blacklisted")
        else if isBlackList (some receiverStatus) then
          some (false, some "transaction is not allowed because receiver is blacklisted")
        else if isGreyList (some senderStatus) then
          some (false, some "transaction is not allowed because sender is greylisted")
        else if isGreyList (some receiverStatus) then
          some (false, some "transaction is not allowed because receiver is greylisted")
        else some (false, some "transaction is not allowed")

/-! ### State-passing resolver, for the frame property

`WalletStatus` only issues reads, so threading the state explicitly makes
the read-only claim expressible: the reader returns the value and the
(unchanged) state it leaves behind. -/

/-- Modelled from the spec: one State Reader access — return the stored
value together with the state after the read, which the spec's read-only
reader leaves untouched. -/
def readState (statedb : StateDB) (c : Address) (slot : List Nat) :
    Nat × StateDB :=
  (statedb c slot, statedb)

/-- `WalletStatus` with the state threaded through `readState`, returning
the status and the state database as it is after the call. -/
def WalletStatusThreaded (addr : Option Address) (statedb : StateDB) :
    Option (Nat × StateDB) :=
  if IsSystemAddr addr then some (1, statedb)
  else
    match addr with
    | none => none
    | some a =>
      let r := readState statedb WacContractAddr (ComputeMappingHash a 3)
      some (r.1, r.2)

/-! ### Concrete test fixtures -/

/-- A state database storing zero everywhere (every address unlisted). -/
def dbZero : StateDB := fun _ _ => 0

/-- A state database storing 1 everywhere (every address whitelisted). -/
def dbOne : StateDB := fun _ _ => 1

/-- A state database storing 2 everywhere (every address greylisted). -/
def dbTwo : StateDB := fun _ _ => 2

/-- A sample address that is not one of the system wallets. -/
def addrA : Address := ⟨0x99, by decide⟩

/-- A second sample address that is not one of the system wallets. -/
def addrB : Address := ⟨0xAA, by decide⟩

/-! ### Encoding lemmas -/

theorem natToBE_length (w : Nat) : ∀ n : Nat, (natToBE w n).length = w := by
  induction w with
  | zero => intro n; rfl
  | succ w ih => intro n; simp [natToBE, ih]

theorem natOfBE_append_byte (bs : List Nat) (b : Nat) :
    natOfBE (bs ++ [b]) = natOfBE bs * 256 + b := by
  simp [natOfBE, List.foldl_append]

/-- `minBytesAux` really encodes its input once the fuel covers it, so the
fuel choice in `minBytes` is invisible: decoding recovers `n`. -/
theorem natOfBE_minBytesAux (fuel : Nat) :
    ∀ n : Nat, n ≤ fuel → natOfBE (minBytesAux fuel n) = n := by
  induction fuel with
  | zero =>
    intro n h
    interval_cases n
    rfl
  | succ fuel ih =>
    intro n h
    by_cases h0 : n = 0
    · simp [minBytesAux, h0, natOfBE]
    · have hlt : n / 256 < n := Nat.div_lt_self (Nat.pos_of_ne_zero h0) (by decide)
      rw [minBytesAux, if_neg h0, natOfBE_append_byte, ih (n / 256) (by omega)]
      omega

/-- Decoding the minimal big-endian bytes of `n` gives back `n`. -/
theorem natOfBE_minBytes (n : Nat) : natOfBE (minBytes n) = n :=
  natOfBE_minBytesAux (n + 1) n (by omega)

theorem minBytesAux_length_le (fuel : Nat) :
    ∀ k n : Nat, n < 256 ^ k → (minBytesAux fuel n).length ≤ k := by
  induction fuel with
  | zero => intro k n _; simp [minBytesAux]
  | succ fuel ih =>
    intro k n h
    by_cases h0 : n = 0
    · simp [minBytesAux, h0]
    · cases k with
      | zero => omega
      | succ k =>
        have hd : n / 256 < 256 ^ k := by
          rw [Nat.div_lt_iff_lt_mul (by decide)]
          calc n < 256 ^ (k + 1) := h
            _ = 256 ^ k * 256 := by rw [Nat.pow_succ]
        have := ih k (n / 256) hd
        rw [minBytesAux, if_neg h0]
        simp only [List.length_append, List.length_cons, List.length_nil]
        omega

theorem minBytes_length_le (n : Nat) (h : n < 2 ^ 256) :
    (minBytes n).length ≤ 32 :=
  minBytesAux_length_le (n + 1) 32 n (by
    have h2 : (256 : Nat) ^ 32 = 2 ^ 256 := by norm_num
    exact lt_of_lt_of_eq h h2.symm)

theorem bytesToHashBytes_of_le (bs : List Nat) (h : bs.length ≤ 32) :
    bytesToHashBytes bs = leftPad32 bs := by
  simp [bytesToHashBytes, leftPad32, h]

/-- `WalletStatus` on a non-nil address, with the system-wallet branch
exposed as an `if`. -/
theorem WalletStatus_some (a : Address) (db : StateDB) :
    WalletStatus (some a) db =
      some (if SystemWallets a then 1
            else db WacContractAddr (ComputeMappingHash a 3)) := by
  by_cases h : SystemWallets a <;> simp [WalletStatus, IsSystemAddr, h]

/-! ### Claim theorems -/

/-- C1 counterexample: with every storage slot zero, a non-system sender and
receiver are both unlisted (StatusCode zero), yet `IsTransactionAllowed`
denies the transaction — the code treats StatusCode zero as blacklisted, so
the claimed "neither restricted means allowed" rule does not hold. -/
theorem c1_counterexample :
    IsSystemAddr (some addrA) = false ∧
    WalletStatus (some addrA) dbZero = some 0 ∧
    WalletStatus (some addrB) dbZero = some 0 ∧
    (IsTransactionAllowed ⟨some addrB⟩ (some addrA) dbZero).map Prod.fst =
      some false := by decide

/-- C1 (amended): for every transaction whose sender is not a System Address
and whose sender and receiver both have stored StatusCode zero, the
transaction is denied with the sender-is-blacklisted reason: this revision
treats an unlisted wallet as blacklisted. -/
theorem c1_unlisted_parties_denied (tx : Transaction) (s r : Address)
    (db : StateDB) (hto : tx.toAddr = some r) (hs : SystemWallets s = false)
    (hsv : db WacContractAddr (ComputeMappingHash s 3) = 0)
    (hrv : db WacContractAddr (ComputeMappingHash r 3) = 0) :
    IsTransactionAllowed tx (some s) db =
      some (false,
        some "transaction is not allowed because sender is blacklisted") := by
  have hss : WalletStatus (some s) db = some 0 := by
    rw [WalletStatus_some, hs]
    simp [hsv]
  have hrs : WalletStatus (some r) db =
      some (if SystemWallets r then 1 else 0) := by
    rw [WalletStatus_some, hrv]
  unfold IsTransactionAllowed
  rw [hto]
  simp [IsSystemAddr, hs, hss, hrs, isWhiteList, isGreyList, isBlackList]

/-- C1 witness: the amended statement at the all-zero state with the two
concrete non-system fixture addresses. -/
theorem c1_witness :
    ((⟨some addrB⟩ : Transaction).toAddr = some addrB ∧
      SystemWallets addrA = false ∧
      dbZero WacContractAddr (ComputeMappingHash addrA 3) = 0 ∧
      dbZero WacContractAddr (ComputeMappingHash addrB 3) = 0) ∧
    IsTransactionAllowed ⟨some addrB⟩ (some addrA) dbZero =
      some (false,
        some "transaction is not allowed because sender is blacklisted") :=
  ⟨⟨rfl, by decide, rfl, rfl⟩,
    c1_unlisted_parties_denied ⟨some addrB⟩ addrA addrB dbZero rfl (by decide)
      rfl rfl⟩

/-- C2: a contract-creation transaction (nil receiver) from a non-system
sender makes `IsTransactionAllowed` dereference the nil receiver pointer
inside `ComputeMappingHash` — the evaluation panics (modelled as `none`)
instead of returning a verdict, so the evaluator is not total. -/
theorem c2_nil_receiver_panics :
    IsSystemAddr (some addrA) = false ∧
    IsTransactionAllowed ⟨none⟩ (some addrA) dbZero = none := by decide

/-- C3: `ComputeMappingHash` is Keccak-256 of the 64-byte concatenation of
the address left-padded to 32 bytes followed by the slot index left-padded
to 32 bytes, address bytes first. -/
theorem c3_mapping_hash (a : Address) (n : Nat) (h : n < 2 ^ 256) :
    (leftPad32 (addrBytes a) ++ leftPad32 (minBytes n)).length = 64 ∧
    ComputeMappingHash a n =
      keccak256Bytes (leftPad32 (addrBytes a) ++ leftPad32 (minBytes n)) := by
  have h20 : (addrBytes a).length = 20 := natToBE_length 20 a.val
  have h32 : (minBytes n).length ≤ 32 := minBytes_length_le n h
  refine ⟨?_, ?_⟩
  · simp [leftPad32, h20]
    omega
  · show keccak256Bytes
        (bytesToHashBytes (addrBytes a) ++ bytesToHashBytes (minBytes n)) = _
    rw [bytesToHashBytes_of_le _ (by omega), bytesToHashBytes_of_le _ h32]

/-- C3 witness: the fixture address at the concrete slot index 3. -/
theorem c3_witness :
    (3 : Nat) < 2 ^ 256 ∧
    ((leftPad32 (addrBytes addrA) ++ leftPad32 (minBytes 3)).length = 64 ∧
      ComputeMappingHash addrA 3 =
        keccak256Bytes (leftPad32 (addrBytes addrA) ++ leftPad32 (minBytes 3))) :=
  ⟨by decide, c3_mapping_hash addrA 3 (by decide)⟩

/-- C4: a transaction whose sender is a system wallet is always admitted,
whatever the receiver and whatever the stored status codes. -/
theorem c4_system_sender_allowed (tx : Transaction) (addr : Option Address)
    (db : StateDB) (h : IsSystemAddr addr = true) :
    IsTransactionAllowed tx addr db = some (true, none) := by
  unfold IsTransactionAllowed
  rw [h]
  simp

/-- C4 witness: the WAC contract address as sender, nil receiver, with a
state database storing 2 (greylisted) in every slot. -/
theorem c4_witness :
    IsSystemAddr (some WacContractAddr) = true ∧
    IsTransactionAllowed ⟨none⟩ (some WacContractAddr) dbTwo =
      some (true, none) :=
  ⟨by decide,
    c4_system_sender_allowed ⟨none⟩ (some WacContractAddr) dbTwo (by decide)⟩

/-- C5: a whitelisted (stored StatusCode 1) non-system sender creating a
contract (nil receiver) does not get the claimed admission: computing the
receiver status dereferences the nil pointer and the call panics (`none`)
instead of returning true. -/
theorem c5_whitelisted_sender_nil_receiver_panics :
    SystemWallets addrA = false ∧
    WalletStatus (some addrA) dbOne = some 1 ∧
    isWhiteList (WalletStatus (some addrA) dbOne) = true ∧
    IsTransactionAllowed ⟨none⟩ (some addrA) dbOne = none := by decide

/-- C6: a sender whose stored StatusCode is 2 (greylisted) sending to a
system-wallet receiver is admitted. -/
theorem c6_greylisted_to_system (tx : Transaction) (s r : Address)
    (db : StateDB) (hto : tx.toAddr = some r) (hr : SystemWallets r = true)
    (hsv : db WacContractAddr (ComputeMappingHash s 3) = 2) :
    IsTransactionAllowed tx (some s) db = some (true, none) := by
  by_cases hs : SystemWallets s
  · simp [IsTransactionAllowed, IsSystemAddr, hs]
  · have hss : WalletStatus (some s) db = some 2 := by
      rw [WalletStatus_some]
      simp [hs, hsv]
    have hrs : WalletStatus (some r) db = some 1 := by
      rw [WalletStatus_some]
      simp [hr]
    unfold IsTransactionAllowed
    rw [hto]
    simp [IsSystemAddr, hs, hss, hrs, isWhiteList, isGreyList, hr]

/-- C6 witness: the fixture sender, greylisted everywhere in storage,
sending to the WAC contract address. -/
theorem c6_witness :
    ((⟨some WacContractAddr⟩ : Transaction).toAddr = some WacContractAddr ∧
      SystemWallets WacContractAddr = true ∧
      dbTwo WacContractAddr (ComputeMappingHash addrA 3) = 2) ∧
    IsTransactionAllowed ⟨some WacContractAddr⟩ (some addrA) dbTwo =
      some (true, none) :=
  ⟨⟨rfl, by decide, rfl⟩,
    c6_greylisted_to_system ⟨some WacContractAddr⟩ addrA WacContractAddr dbTwo
      rfl (by decide) rfl⟩

/-- C7 counterexample: the WAC contract address is a system wallet, so even
when its own mapping slot stores 2, `WalletStatus` reports 1 — the
unconditional round-trip claim fails on system addresses. -/
theorem c7_counterexample :
    SystemWallets WacContractAddr = true ∧
    dbTwo WacContractAddr (ComputeMappingHash WacContractAddr 3) = 2 ∧
    WalletStatus (some WacContractAddr) dbTwo = some 1 ∧
    WalletStatus (some WacContractAddr) dbTwo ≠ some 2 := by decide

/-- C7 (amended): for every address that is not a system wallet, storing a
32-byte value `v` at the computed slot makes `WalletStatus` return exactly
`v`. -/
theorem c7_roundtrip_nonsystem (a : Address) (v : Nat) (db : StateDB)
    (hs : SystemWallets a = false) (_hv : v < 2 ^ 256)
    (hdb : db WacContractAddr (ComputeMappingHash a 3) = v) :
    WalletStatus (some a) db = some v := by
  rw [WalletStatus_some, hs]
  simp [hdb]

/-- C7 witness: the fixture non-system address with value 2 stored
everywhere. -/
theorem c7_witness :
    (SystemWallets addrA = false ∧ (2 : Nat) < 2 ^ 256 ∧
      dbTwo WacContractAddr (ComputeMappingHash addrA 3) = 2) ∧
    WalletStatus (some addrA) dbTwo = some 2 :=
  ⟨⟨by decide, by decide, rfl⟩,
    c7_roundtrip_nonsystem addrA 2 dbTwo (by decide) (by decide) rfl⟩

/-- C8: the resolver is read-only — whenever the state-threaded
`WalletStatusThreaded` returns, the state database it hands back is the one
it was given: no storage entry is created or modified. -/
theorem c8_resolver_readonly (addr : Option Address) (db : StateDB) (v : Nat)
    (db2 : StateDB) (h : WalletStatusThreaded addr db = some (v, db2)) :
    db2 = db := by
  cases addr with
  | none => simp [WalletStatusThreaded, IsSystemAddr] at h
  | some a =>
    by_cases hs : SystemWallets a
    · simp [WalletStatusThreaded, IsSystemAddr, hs] at h
      exact h.2.symm
    · simp [WalletStatusThreaded, IsSystemAddr, hs, readState] at h
      exact h.2.symm

/-- C8 witness: the fixture address against the all-zero state database. -/
theorem c8_witness : dbZero = dbZero :=
  c8_resolver_readonly (some addrA) dbZero 0 dbZero rfl

/-- C9: whenever `IsTransactionAllowed` returns, the verdict is `true`
exactly when the returned error is absent: admissions are `(true, nil)` and
denials carry a reason. -/
theorem c9_error_iff_denied (tx : Transaction) (addr : Option Address)
    (db : StateDB) (b : Bool) (e : Option String)
    (h : IsTransactionAllowed tx addr db = some (b, e)) :
    b = true ↔ e = none := by
  unfold IsTransactionAllowed at h
  repeat' split at h
  all_goals first
    | (simp_all; done)
    | (obtain ⟨rfl, rfl⟩ := h; simp)

/-- C9 witness: a concrete denial — non-system unlisted sender to the WAC
contract — instantiating the equivalence at `(false, some reason)`. -/
theorem c9_witness :
    false = true ↔
      (some "transaction is not allowed because sender is blacklisted" :
        Option String) = none :=
  c9_error_iff_denied ⟨some WacContractAddr⟩ (some addrA) dbZero false
    (some "transaction is not allowed because sender is blacklisted") rfl

/-- C10: a system-wallet address is reported as status 1 by `WalletStatus`
for every state database, in particular one whose mapping stores a different
code for it. -/
theorem c10_system_status_one (a : Address) (db : StateDB)
    (h : SystemWallets a = true) :
    WalletStatus (some a) db = some 1 := by
  simp [WalletStatus, IsSystemAddr, h]

/-- C10 witness: the WAC contract address against a state database whose
every slot stores 2. -/
theorem c10_witness :
    SystemWallets WacContractAddr = true ∧
    WalletStatus (some WacContractAddr) dbTwo = some 1 :=
  ⟨by decide, c10_system_status_one WacContractAddr dbTwo (by decide)⟩
